import Mathlib

/-!
Shallow embedding of the contact-form validation and submission core of
this repository (`ContactFormValidator` and `ContactFormHandler` in the
contact-page script).

Conventions of the embedding:
* JavaScript strings become `String`; `formData.get` values are the given
  strings of a `FormValues` record.
* The DOM side effects of the validator (CSS classes on the `.form-group`,
  the `aria-invalid` attribute, the inline error text) are carried
  explicitly as a `FieldUI` record per field.
* The `Map` of errors keyed by field name becomes an association list with
  JavaScript `Map` semantics (`set` overwrites in place or appends,
  `delete` removes).
* JavaScript truthiness of a string (`!value`) is `value = ""`, and
  `value.trim()` is `jsTrim`, both over the character list.
* The asynchronous submission is modelled as a small event system: a
  `call` event runs the synchronous prefix of `handleSubmit` up to the
  `await`, and a `resolveAt` event delivers the collaborator's response
  (with the elapsed resolution time in milliseconds) and runs the
  continuation (`handleSuccess` / `handleError` and the `finally` block).
  This matches the run-to-completion scheduling of the browser event loop.
-/

/-- The whitespace class used by the script's regular expression `\s`,
restricted to the ASCII whitespace characters plus the no-break space.
The same predicate is used on both the code side (the email pattern, the
trim) and the spec side (`specEmailShape`), so the choice of the exact
character set cancels out in the comparison. -/
def jsWs (c : Char) : Bool :=
  c = ' ' || c = '\t' || c = '\n' || c = '\r' || c = '\x0b' || c = '\x0c' || c = ' '

/-- Embedding of JavaScript `String.prototype.trim`: strip leading and
trailing whitespace. -/
def jsTrim (s : String) : String :=
  String.mk (((s.toList.dropWhile jsWs).reverse.dropWhile jsWs).reverse)

/-- A character admitted by the `[^\s@]` character class of
`EMAIL_PATTERN`. -/
def emailAtomChar (c : Char) : Bool :=
  !jsWs c && c ≠ '@'

/-- The scanning predicate locating the first `@`. -/
def notAtSign (c : Char) : Bool :=
  c ≠ '@'

/-- Embedding of `CONTACT_CONFIG.EMAIL_PATTERN.test`, for the pattern
`/^[^\s@]+@[^\s@]+\.[^\s@]+$/`: the string splits at its unique `@` into a
non-empty local part and a remainder that contains a `.` with non-empty
atom text on both sides; no character may be whitespace or a second `@`.
Since the two `+`-groups around the `\.` may themselves contain dots, the
remainder matches `[^\s@]+\.[^\s@]+` exactly when some dot sits strictly
inside it (neither first nor last character). -/
def emailPatternTest (s : String) : Bool :=
  let cs := s.toList
  let a := cs.takeWhile notAtSign
  match cs.dropWhile notAtSign with
  | '@' :: r =>
      !a.isEmpty && a.all emailAtomChar && r.all emailAtomChar &&
        ((r.drop 1).dropLast).contains '.'
  | _ => false

namespace CONTACT_CONFIG

/-- `CONTACT_CONFIG.SUBMISSION_TIMEOUT`. -/
def SUBMISSION_TIMEOUT : Nat := 10000

/-- `CONTACT_CONFIG.MIN_MESSAGE_LENGTH`. -/
def MIN_MESSAGE_LENGTH : Nat := 10

/-- `CONTACT_CONFIG.MAX_MESSAGE_LENGTH`. -/
def MAX_MESSAGE_LENGTH : Nat := 1000

/-- `CONTACT_CONFIG.MESSAGES.SUCCESS`. -/
def MSG_SUCCESS : String :=
  "Thank you for your message! We'll get back to you within 24 hours."

/-- `CONTACT_CONFIG.MESSAGES.ERROR`. -/
def MSG_ERROR : String :=
  "Sorry, there was an error sending your message. Please try again."

/-- `CONTACT_CONFIG.MESSAGES.VALIDATION_ERROR`. -/
def MSG_VALIDATION_ERROR : String :=
  "Please fix the errors below and try again."

/-- `CONTACT_CONFIG.MESSAGES.NETWORK_ERROR`. -/
def MSG_NETWORK_ERROR : String :=
  "Network error. Please check your connection and try again."

end CONTACT_CONFIG

/-- The fixed field set of the contact form, in DOM order. -/
inductive FieldId
  | name
  | email
  | subject
  | message
deriving DecidableEq, Repr

/-- Per-field UI state written by the validator: the `error` / `success`
classes on the surrounding `.form-group`, the field's `aria-invalid`
attribute (`none` when the attribute is absent), and the inline
`.error-message` text. -/
structure FieldUI where
  hasErrorClass : Bool
  hasSuccessClass : Bool
  ariaInvalid : Option Bool
  errorText : String
deriving DecidableEq, Repr

/-- The UI state of a pristine field: no classes, no attribute, no text. -/
def FieldUI.clean : FieldUI :=
  { hasErrorClass := false, hasSuccessClass := false,
    ariaInvalid := none, errorText := "" }

/-- State of a `ContactFormValidator` instance: the `errors` map (as an
insertion-ordered association list with `Map` semantics), the `isValid`
flag, and the UI state of each of the four fields. -/
structure VState where
  errors : List (FieldId × String)
  isValid : Bool
  nameUI : FieldUI
  emailUI : FieldUI
  subjectUI : FieldUI
  messageUI : FieldUI
deriving DecidableEq, Repr

/-- A freshly constructed validator over a pristine form. -/
def VState.init : VState :=
  { errors := [], isValid := true,
    nameUI := .clean, emailUI := .clean, subjectUI := .clean, messageUI := .clean }

/-- Read one field's UI record. -/
def VState.ui (s : VState) : FieldId → FieldUI
  | .name => s.nameUI
  | .email => s.emailUI
  | .subject => s.subjectUI
  | .message => s.messageUI

/-- Replace one field's UI record. -/
def VState.setUI (s : VState) : FieldId → FieldUI → VState
  | .name, u => { s with nameUI := u }
  | .email, u => { s with emailUI := u }
  | .subject, u => { s with subjectUI := u }
  | .message, u => { s with messageUI := u }

/-- JavaScript `Map.prototype.set`: overwrite an existing key in place,
otherwise append at the end. -/
def mapSet (m : List (FieldId × String)) (k : FieldId) (v : String) :
    List (FieldId × String) :=
  if m.any (fun p => p.1 = k) then
    m.map (fun p => if p.1 = k then (k, v) else p)
  else
    m ++ [(k, v)]

/-- JavaScript `Map.prototype.delete`. -/
def mapDelete (m : List (FieldId × String)) (k : FieldId) :
    List (FieldId × String) :=
  m.filter (fun p => p.1 ≠ k)

/-- JavaScript `Map.prototype.get` (`none` for a missing key). -/
def mapGet (m : List (FieldId × String)) (k : FieldId) : Option String :=
  (m.find? (fun p => p.1 = k)).map Prod.snd

/-- `ContactFormValidator.addError`: record the message under the field's
name, drop `isValid`, mark the form group as `error` (removing `success`),
set `aria-invalid="true"` and the inline error text. -/
def addError (s : VState) (f : FieldId) (msg : String) : VState :=
  let s := { s with errors := mapSet s.errors f msg, isValid := false }
  s.setUI f
    { hasErrorClass := true, hasSuccessClass := false,
      ariaInvalid := some true, errorText := msg }

/-- `ContactFormValidator.removeError`: delete the field's entry, mark the
form group as `success` (removing `error`), set `aria-invalid="false"` and
clear the inline error text. `isValid` is left untouched. -/
def removeError (s : VState) (f : FieldId) : VState :=
  let s := { s with errors := mapDelete s.errors f }
  s.setUI f
    { hasErrorClass := false, hasSuccessClass := true,
      ariaInvalid := some false, errorText := "" }

/-- The condition of `validateRequired`: `!value || value.trim() === ""`. -/
def requiredFails (value : String) : Bool :=
  value = "" || jsTrim value = ""

/-- `ContactFormValidator.validateRequired`. -/
def validateRequired (s : VState) (f : FieldId) (value : String)
    (fieldName : String) : VState × Bool :=
  if requiredFails value then
    (addError s f (fieldName ++ " is required"), false)
  else
    (removeError s f, true)

/-- `ContactFormValidator.validateEmail`: an empty value returns `false`
immediately, without touching the error map or the UI. -/
def validateEmail (s : VState) (f : FieldId) (email : String) :
    VState × Bool :=
  if email = "" then (s, false)
  else if !emailPatternTest email then
    (addError s f "Please enter a valid email address", false)
  else
    (removeError s f, true)

/-- The "too short" message, built as the script interpolates it. -/
def msgTooShort : String :=
  "Message must be at least " ++
    Nat.repr CONTACT_CONFIG.MIN_MESSAGE_LENGTH ++ " characters"

/-- The "too long" message, built as the script interpolates it. -/
def msgTooLong : String :=
  "Message must be less than " ++
    Nat.repr CONTACT_CONFIG.MAX_MESSAGE_LENGTH ++ " characters"

/-- `ContactFormValidator.validateMessage`: an empty value returns `false`
immediately, without touching the error map or the UI. -/
def validateMessage (s : VState) (f : FieldId) (message : String) :
    VState × Bool :=
  if message = "" then (s, false)
  else if message.length < CONTACT_CONFIG.MIN_MESSAGE_LENGTH then
    (addError s f msgTooShort, false)
  else if message.length > CONTACT_CONFIG.MAX_MESSAGE_LENGTH then
    (addError s f msgTooLong, false)
  else
    (removeError s f, true)

/-- The four field values the form data holds. -/
structure FormValues where
  name : String
  email : String
  subject : String
  message : String
deriving DecidableEq, Repr

/-- `ContactFormValidator.validateForm`: clear the error map, reset
`isValid`, validate each field in order (the `&&` short-circuits skip the
format / length rule when the required check failed), return `isValid`. -/
def validateForm (s : VState) (v : FormValues) : VState × Bool :=
  let s := { s with errors := [], isValid := true }
  let s := (validateRequired s .name v.name "Name").1
  let s :=
    match validateRequired s .email v.email "Email" with
    | (s, true) => (validateEmail s .email v.email).1
    | (s, false) => s
  let s := (validateRequired s .subject v.subject "Subject").1
  let s :=
    match validateRequired s .message v.message "Message" with
    | (s, true) => (validateMessage s .message v.message).1
    | (s, false) => s
  (s, s.isValid)

/-- Derived characterization (proved equal to `validateForm` below): the
error `validateForm` ends up recording for one field, as a pure function
of the submitted values. -/
def fieldError (v : FormValues) : FieldId → Option String
  | .name =>
      if requiredFails v.name then some "Name is required" else none
  | .email =>
      if requiredFails v.email then some "Email is required"
      else if !emailPatternTest v.email then
        some "Please enter a valid email address"
      else none
  | .subject =>
      if requiredFails v.subject then some "Subject is required" else none
  | .message =>
      if requiredFails v.message then some "Message is required"
      else if v.message.length < CONTACT_CONFIG.MIN_MESSAGE_LENGTH then
        some msgTooShort
      else if v.message.length > CONTACT_CONFIG.MAX_MESSAGE_LENGTH then
        some msgTooLong
      else none

/-- The UI record a field ends up with after a full validation pass, given
its outcome. -/
def outcomeUI : Option String → FieldUI
  | some m =>
      { hasErrorClass := true, hasSuccessClass := false,
        ariaInvalid := some true, errorText := m }
  | none =>
      { hasErrorClass := false, hasSuccessClass := true,
        ariaInvalid := some false, errorText := "" }

/-- The error map a full validation pass rebuilds, in field order. -/
def formErrors (v : FormValues) : List (FieldId × String) :=
  [FieldId.name, .email, .subject, .message].filterMap
    (fun f => (fieldError v f).map (fun m => (f, m)))

/-- Whether every field passes, as a pure function of the values. -/
def formAllOk (v : FormValues) : Bool :=
  (fieldError v .name).isNone && (fieldError v .email).isNone &&
    (fieldError v .subject).isNone && (fieldError v .message).isNone

/-- The validator state a full validation pass ends in; it does not depend
on the state the pass started from. -/
def formResult (v : FormValues) : VState :=
  { errors := formErrors v
    isValid := formAllOk v
    nameUI := outcomeUI (fieldError v .name)
    emailUI := outcomeUI (fieldError v .email)
    subjectUI := outcomeUI (fieldError v .subject)
    messageUI := outcomeUI (fieldError v .message) }

/-- Modelled from the spec: the email "shape" the specification describes
in prose — at least one `@`, at least one `.` after it, and no whitespace.
This is the spec-side predicate `emailPatternTest` is compared against;
it is deliberately written from the spec's words, not from the code. -/
def specEmailShape (s : String) : Bool :=
  let cs := s.toList
  cs.all (fun c => !jsWs c) && (cs.dropWhile notAtSign).contains '.'

/-- Notification kinds of `showNotification`. -/
inductive NotifKind
  | success
  | error
  | info
deriving DecidableEq, Repr

/-- A visible notification. `showNotification` removes any existing one
before rendering, so at most one is visible: the slot is an `Option`. -/
structure Notif where
  message : String
  kind : NotifKind
deriving DecidableEq, Repr

/-- The response of the external submit collaborator: the promise resolves
with `{success:true}`, resolves with `{success:false, message?}`, or
rejects (an exception reaches the `catch` block). -/
inductive SubmitResponse
  | success
  | failure (msg : Option String)
  | thrown
deriving DecidableEq, Repr

/-- JavaScript `m || fallback` on an optional string (the empty string is
falsy). -/
def jsOrElse (m : Option String) (fallback : String) : String :=
  match m with
  | some s => if s = "" then fallback else s
  | none => fallback

/-- State of a `ContactFormHandler` instance together with the DOM pieces
it drives. `inFlight` counts external submit operations that were invoked
and have not yet settled; `submitCalls` and `validateRuns` are history
counters used to state the at-most-one-in-flight and no-revalidation
properties. -/
structure HState where
  validator : VState
  values : FormValues
  isSubmitting : Bool
  inFlight : Nat
  submitCalls : Nat
  validateRuns : Nat
  notif : Option Notif
  inputsDisabled : Bool
  submitDisabled : Bool
  submitLabel : String
  submitLoading : Bool
  counterText : String
  focused : Option FieldId
deriving DecidableEq, Repr

/-- `ContactFormHandler.setSubmittingState`: toggle `isSubmitting`, the
submit button's disabled flag, `loading` class and label, and the disabled
flag of every input field. -/
def setSubmittingState (s : HState) (b : Bool) : HState :=
  { s with
    isSubmitting := b
    submitDisabled := b
    submitLoading := b
    submitLabel := if b then "Sending..." else "Send Message"
    inputsDisabled := b }

/-- `showNotification`: replace whatever notification is visible. -/
def showNotif (s : HState) (message : String) (kind : NotifKind) : HState :=
  { s with notif := some ⟨message, kind⟩ }

/-- `ContactFormHandler.focusFirstError`: the first field in DOM order
whose form group carries the `error` class, if any. -/
def firstErrorField (v : VState) : Option FieldId :=
  if v.nameUI.hasErrorClass then some .name
  else if v.emailUI.hasErrorClass then some .email
  else if v.subjectUI.hasErrorClass then some .subject
  else if v.messageUI.hasErrorClass then some .message
  else none

/-- `ContactFormHandler.focusFirstError`: focus moves only when an invalid
field exists. -/
def focusFirstError (s : HState) : HState :=
  match firstErrorField s.validator with
  | some f => { s with focused := some f }
  | none => s

/-- `ContactFormHandler.clearValidationStates`: strip the `error` and
`success` classes from every form group, remove every `aria-invalid`
attribute, blank every inline error text. The validator's `errors` map is
not touched. -/
def clearValidationStates (s : HState) : HState :=
  { s with validator :=
      { s.validator with
        nameUI := .clean, emailUI := .clean,
        subjectUI := .clean, messageUI := .clean } }

/-- `ContactFormHandler.handleSuccess`: success notification, `form.reset()`
(field values back to their empty defaults), `clearValidationStates`,
character counter reset to `0/<max> characters`, focus to the first field. -/
def handleSuccess (s : HState) : HState :=
  let s := showNotif s CONTACT_CONFIG.MSG_SUCCESS .success
  let s := { s with values := ⟨"", "", "", ""⟩ }
  let s := clearValidationStates s
  let s := { s with counterText :=
    "0/" ++ Nat.repr CONTACT_CONFIG.MAX_MESSAGE_LENGTH ++ " characters" }
  { s with focused := some .name }

/-- `ContactFormHandler.handleError`: an error notification, nothing else. -/
def handleError (s : HState) (message : String) : HState :=
  showNotif s message .error

/-- The synchronous prefix of `ContactFormHandler.handleSubmit`, up to and
including the invocation of the external submit collaborator: bail out
while `isSubmitting`; run `validateForm` on the current values; on failure
show the validation-error notification and focus the first invalid field;
on success enter the submitting state and invoke the collaborator. -/
def handleSubmitStart (s : HState) : HState :=
  if s.isSubmitting then s
  else
    let (v', ok) := validateForm s.validator s.values
    let s := { s with validator := v', validateRuns := s.validateRuns + 1 }
    if !ok then
      focusFirstError (showNotif s CONTACT_CONFIG.MSG_VALIDATION_ERROR .error)
    else
      let s := setSubmittingState s true
      { s with inFlight := s.inFlight + 1, submitCalls := s.submitCalls + 1 }

/-- The continuation of `handleSubmit` once the awaited submit settles
after `elapsedMs` milliseconds: the `try` branches on `response.success`
(a missing message falls back to `MESSAGES.ERROR`), the `catch` converts
an exception to the network-error notification, and the `finally` always
leaves the submitting state. The code never consults `elapsedMs` — the
`await` has no timeout attached. When nothing is in flight there is no
suspended continuation to resume and the event is a no-op. -/
def resolveStep (s : HState) (elapsedMs : Nat) (r : SubmitResponse) : HState :=
  if s.inFlight = 0 then s
  else
    let _ := elapsedMs
    let s := { s with inFlight := s.inFlight - 1 }
    let s :=
      match r with
      | .success => handleSuccess s
      | .failure msg => handleError s (jsOrElse msg CONTACT_CONFIG.MSG_ERROR)
      | .thrown => handleError s CONTACT_CONFIG.MSG_NETWORK_ERROR
    setSubmittingState s false

/-- Observable events of the submission lifecycle: a (possibly re-entrant)
`handleSubmit` invocation, or the settling of the in-flight submit with a
given response after a given delay. -/
inductive HEvent
  | call
  | resolveAt (elapsedMs : Nat) (r : SubmitResponse)

/-- One scheduling step of the event loop. -/
def hstep (s : HState) : HEvent → HState
  | .call => handleSubmitStart s
  | .resolveAt t r => resolveStep s t r

/-- Run a sequence of events. -/
def runEvents (s : HState) (es : List HEvent) : HState :=
  es.foldl hstep s

/-- A freshly initialized handler over a form currently holding `v`: idle,
nothing in flight, no notification, all fields enabled, the submit button
in its rest state, the character counter showing the initial count. -/
def initState (v : FormValues) : HState :=
  { validator := VState.init
    values := v
    isSubmitting := false
    inFlight := 0
    submitCalls := 0
    validateRuns := 0
    notif := none
    inputsDisabled := false
    submitDisabled := false
    submitLabel := "Send Message"
    submitLoading := false
    counterText :=
      Nat.repr v.message.length ++ "/" ++
        Nat.repr CONTACT_CONFIG.MAX_MESSAGE_LENGTH ++ " characters"
    focused := none }

/-- The notification message the two failure branches of `handleSubmit`
show: `response.message || MESSAGES.ERROR` for an explicit failure flag,
`MESSAGES.NETWORK_ERROR` for an exception. The `success` case never
reaches `handleError`; it is mapped to `MESSAGES.ERROR` only to keep the
function total. -/
def failureMessage : SubmitResponse → String
  | .failure m => jsOrElse m CONTACT_CONFIG.MSG_ERROR
  | .thrown => CONTACT_CONFIG.MSG_NETWORK_ERROR
  | .success => CONTACT_CONFIG.MSG_ERROR

/-- The spec's all-fields-valid scenario values. -/
def demoValid : FormValues :=
  ⟨"Jo", "jo@x.com", "Hi", "xxxxxxxxxxxxxxxxxxxx"⟩

/-- A handler state with one submission in flight, as `handleSubmit`
leaves it right after invoking the external collaborator. -/
def demoBusy : HState :=
  setSubmittingState
    { initState demoValid with inFlight := 1, submitCalls := 1, validateRuns := 1 }
    true

/-- A message string sitting exactly at the upper length bound. -/
def longOk : String :=
  String.mk (List.replicate 1000 'x')

/-- A message string one character past the upper length bound. -/
def tooLong1001 : String :=
  String.mk (List.replicate 1001 'x')

/-- The coupling invariant of the submission lifecycle: the number of
pending external submits never exceeds one, and `isSubmitting` is exactly
the in-flight indicator. -/
def flightInv (s : HState) : Prop :=
  s.inFlight ≤ 1 ∧ (s.isSubmitting = true ↔ s.inFlight = 1)

/-! ## Helper lemmas -/

theorem requiredFails_false_ne {s : String} (h : requiredFails s = false) :
    (s = "") = False := by
  simp only [requiredFails, Bool.or_eq_false_iff, decide_eq_false_iff_not] at h
  simp [h.1]

set_option maxHeartbeats 1600000 in
/-- `validateForm` rebuilds the validator state from the values alone: its
result is `formResult` / `formAllOk`, independent of the starting state. -/
theorem validateForm_eq_formResult (s : VState) (v : FormValues) :
    validateForm s v = (formResult v, formAllOk v) := by
  cases h1 : requiredFails v.name <;>
  cases h2 : requiredFails v.email <;>
  cases h3 : emailPatternTest v.email <;>
  cases h4 : requiredFails v.subject <;>
  cases h5 : requiredFails v.message <;>
  by_cases h6 : v.message.length < CONTACT_CONFIG.MIN_MESSAGE_LENGTH <;>
  by_cases h7 : v.message.length > CONTACT_CONFIG.MAX_MESSAGE_LENGTH <;>
  first
  | omega
  | simp [validateForm, validateRequired, validateEmail, validateMessage,
      addError, removeError, mapSet, mapDelete, VState.setUI, formResult,
      formErrors, formAllOk, fieldError, outcomeUI, requiredFails_false_ne,
      h1, h2, h3, h4, h5, h6, h7]

theorem mapGet_map_overwrite (m : List (FieldId × String)) (k : FieldId)
    (v : String) (h : m.any (fun p => p.1 = k) = true) :
    mapGet (m.map (fun p => if p.1 = k then (k, v) else p)) k = some v := by
  induction m with
  | nil => simp at h
  | cons p t ih =>
    by_cases hp : p.1 = k
    · simp [mapGet, List.find?_cons, hp]
    · have ht : t.any (fun p => p.1 = k) = true := by simpa [hp] using h
      simpa [mapGet, List.find?_cons, hp] using ih ht

theorem mapGet_append_new (m : List (FieldId × String)) (k : FieldId)
    (v : String) (h : m.any (fun p => p.1 = k) = false) :
    mapGet (m ++ [(k, v)]) k = some v := by
  induction m with
  | nil => simp [mapGet, List.find?]
  | cons p t ih =>
    have hp : ¬(p.1 = k) := by
      intro hk
      simp [hk] at h
    have ht : t.any (fun p => p.1 = k) = false := by simpa [hp] using h
    simpa [mapGet, List.find?_cons, hp] using ih ht

theorem mapGet_set_self (m : List (FieldId × String)) (k : FieldId)
    (v : String) : mapGet (mapSet m k v) k = some v := by
  rw [mapSet]
  cases h : m.any (fun p => p.1 = k) with
  | true => simpa using mapGet_map_overwrite m k v h
  | false => simpa using mapGet_append_new m k v h

theorem emailAtomChar_not_ws {c : Char} (h : emailAtomChar c = true) :
    jsWs c = false := by
  simp only [emailAtomChar, Bool.and_eq_true, Bool.not_eq_true'] at h
  exact h.1

theorem shape_of_test {s : String} (h : emailPatternTest s = true) :
    specEmailShape s = true := by
  simp only [emailPatternTest] at h
  split at h
  case _ r heq =>
    simp only [Bool.and_eq_true, Bool.not_eq_true', List.isEmpty_eq_false,
      List.all_eq_true, List.contains, List.elem_iff] at h
    obtain ⟨⟨⟨hne, hall⟩, hrall⟩, hdot⟩ := h
    have hdotr : '.' ∈ r := List.drop_subset 1 r (List.dropLast_subset _ hdot)
    have hsplit : s.toList.takeWhile notAtSign ++ s.toList.dropWhile notAtSign
        = s.toList := List.takeWhile_append_dropWhile ..
    simp only [specEmailShape, Bool.and_eq_true]
    constructor
    · rw [List.all_eq_true, ← hsplit, heq]
      intro c hc
      rcases List.mem_append.mp hc with hc | hc
      · simp [emailAtomChar_not_ws (hall c hc)]
      · rcases List.mem_cons.mp hc with rfl | hc
        · decide
        · simp [emailAtomChar_not_ws (hrall c hc)]
    · rw [heq]
      simp [List.contains, List.elem_iff, hdotr]
  case _ => simp at h

theorem setUI_errors (s : VState) (f : FieldId) (u : FieldUI) :
    (s.setUI f u).errors = s.errors := by
  cases f <;> rfl

theorem formErrors_nil_of_allOk {v : FormValues} (h : formAllOk v = true) :
    formErrors v = [] := by
  simp only [formAllOk, Bool.and_eq_true, Option.isNone_iff_eq_none] at h
  obtain ⟨⟨⟨h1, h2⟩, h3⟩, h4⟩ := h
  simp [formErrors, h1, h2, h3, h4]

theorem handleSubmitStart_of_submitting {s : HState}
    (h : s.isSubmitting = true) : handleSubmitStart s = s := by
  simp [handleSubmitStart, h]

theorem hstep_flightInv {s : HState} (hs : flightInv s) (e : HEvent) :
    flightInv (hstep s e) := by
  obtain ⟨hle, hiff⟩ := hs
  cases e with
  | call =>
    show flightInv (handleSubmitStart s)
    cases hb : s.isSubmitting with
    | true => rw [handleSubmitStart_of_submitting hb]; exact ⟨hle, hiff⟩
    | false =>
      have h1 : s.inFlight ≠ 1 := fun hh => by simp [hiff.mpr hh] at hb
      have h0 : s.inFlight = 0 := by omega
      rw [handleSubmitStart, if_neg (by simp [hb])]
      rcases hveq : validateForm s.validator s.values with ⟨v', ok⟩
      cases ok with
      | false =>
        cases hfe : firstErrorField v' <;>
          simp [focusFirstError, showNotif, hfe, flightInv, hb, h0]
      | true =>
        simp [setSubmittingState, flightInv, h0]
  | resolveAt t r =>
    show flightInv (resolveStep s t r)
    rw [resolveStep]
    by_cases hf : s.inFlight = 0
    · rw [if_pos hf]; exact ⟨hle, hiff⟩
    · rw [if_neg hf]
      cases r <;>
        simp [handleSuccess, handleError, showNotif, clearValidationStates,
          setSubmittingState, flightInv] <;> omega

theorem runEvents_flightInv :
    ∀ (es : List HEvent) (s : HState), flightInv s → flightInv (runEvents s es)
  | [], _, h => h
  | e :: es, s, h => runEvents_flightInv es (hstep s e) (hstep_flightInv h e)

/-! ## Claim theorems -/

/-- C2: for the values `name=""`, `email="a@b.com"`, `subject="Hi"`,
`message="short"`, `validateForm` returns `false`, the error set is
exactly `name ↦ "Name is required"` followed by
`message ↦ "Message must be at least 10 characters"`, and the email and
subject fields are marked success (success class set, error class not). -/
theorem c2_scenario_name_missing_message_short :
    (validateForm VState.init ⟨"", "a@b.com", "Hi", "short"⟩).2 = false ∧
    (validateForm VState.init ⟨"", "a@b.com", "Hi", "short"⟩).1.errors =
      [(FieldId.name, "Name is required"),
       (FieldId.message, "Message must be at least 10 characters")] ∧
    (validateForm VState.init ⟨"", "a@b.com", "Hi", "short"⟩).1.emailUI.hasSuccessClass
      = true ∧
    (validateForm VState.init ⟨"", "a@b.com", "Hi", "short"⟩).1.emailUI.hasErrorClass
      = false ∧
    (validateForm VState.init ⟨"", "a@b.com", "Hi", "short"⟩).1.subjectUI.hasSuccessClass
      = true ∧
    (validateForm VState.init ⟨"", "a@b.com", "Hi", "short"⟩).1.subjectUI.hasErrorClass
      = false := by
  decide

/-- C3: when the email value is empty or whitespace-only, the full-form
validation records exactly the required-field error for the email field:
its entry is `"Email is required"`, and no other entry for the email field
(in particular the email-format error) exists in the error set. -/
theorem c3_empty_email_only_required_error (s : VState) (v : FormValues)
    (h : v.email = "" ∨ jsTrim v.email = "") :
    mapGet (validateForm s v).1.errors .email = some "Email is required" ∧
    ∀ p ∈ (validateForm s v).1.errors, p.1 = FieldId.email →
      p.2 = "Email is required" := by
  have hrf : requiredFails v.email = true := by
    rcases h with h | h <;> simp [requiredFails, h]
  have he : fieldError v .email = some "Email is required" := by
    simp [fieldError, hrf]
  rw [validateForm_eq_formResult]
  cases hn : fieldError v .name <;>
  cases hs2 : fieldError v .subject <;>
  cases hm : fieldError v .message <;>
    simp [formResult, formErrors, mapGet, he, hn, hs2, hm, List.find?]

/-- Witness for C3 at an empty email value. -/
theorem c3_empty_email_only_required_error_witness :
    mapGet (validateForm VState.init ⟨"Jo", "", "Hi", "hello world!!"⟩).1.errors .email
      = some "Email is required" ∧
    ∀ p ∈ (validateForm VState.init ⟨"Jo", "", "Hi", "hello world!!"⟩).1.errors,
      p.1 = FieldId.email → p.2 = "Email is required" :=
  c3_empty_email_only_required_error VState.init
    ⟨"Jo", "", "Hi", "hello world!!"⟩ (Or.inl rfl)

/-- Counterexample to C4 as stated: the single space is a non-empty string
that does not match the spec's email shape, `validateEmail` fails on it,
but `validateRequired` returns `false` on it rather than `true` (its trim
is empty), so the claim's "validateRequired passes" part is false. -/
theorem c4_counterexample :
    " " ≠ "" ∧ specEmailShape " " = false ∧
    (validateEmail VState.init .email " ").2 = false ∧
    (validateRequired VState.init .email " " "Email").2 = false := by
  decide

/-- C4 (amended): for every non-empty string that is not whitespace-only
and does not match the spec's email shape, `validateEmail` returns `false`
and records the email-format error message, and `validateRequired` on the
same string returns `true`. -/
theorem c4_nonshaped_email_fails_required_passes (s : VState) (f : FieldId)
    (value label : String) (hne : value ≠ "") (htr : jsTrim value ≠ "")
    (hshape : specEmailShape value = false) :
    (validateEmail s f value).2 = false ∧
    mapGet (validateEmail s f value).1.errors f =
      some "Please enter a valid email address" ∧
    (validateRequired s f value label).2 = true := by
  have htest : emailPatternTest value = false := by
    cases h : emailPatternTest value with
    | false => rfl
    | true => rw [shape_of_test h] at hshape; cases hshape
  refine ⟨?_, ?_, ?_⟩
  · simp [validateEmail, hne, htest]
  · simp [validateEmail, hne, htest, addError, setUI_errors, mapGet_set_self]
  · simp [validateRequired, requiredFails, hne, htr]

/-- Witness for the amended C4 at the plain word `"foo"`. -/
theorem c4_nonshaped_email_fails_required_passes_witness :
    (validateEmail VState.init .email "foo").2 = false ∧
    mapGet (validateEmail VState.init .email "foo").1.errors .email =
      some "Please enter a valid email address" ∧
    (validateRequired VState.init .email "foo" "Email").2 = true :=
  c4_nonshaped_email_fails_required_passes VState.init .email "foo" "Email"
    (by decide) (by decide) (by decide)

/-- C6: `validateForm` is idempotent — a second run on the same values,
starting from the state the first run produced, yields exactly the same
validator state and return value, because each invocation clears and fully
rebuilds the error set and the per-field marking. -/
theorem c6_validateForm_idempotent (s : VState) (v : FormValues) :
    validateForm (validateForm s v).1 v = validateForm s v := by
  simp [validateForm_eq_formResult]

/-- C10: called directly with the empty string, `validateEmail` and
`validateMessage` return `false` through their early-return guard with the
validator state (error set, `isValid`, per-field UI) completely unchanged,
so the failure carries no recorded error message. -/
theorem c10_empty_value_early_return_no_error (s : VState) (f : FieldId) :
    validateEmail s f "" = (s, false) ∧ validateMessage s f "" = (s, false) :=
  ⟨by simp [validateEmail], by simp [validateMessage]⟩

/-- C5: every string of length in `[10, 1000]` passes the message-length
validation (so both boundaries pass); every string of length 9 fails with
the "too short" message; every string of length 1001 fails with the "too
long" message. -/
theorem c5_message_length_rules (s : VState) (f : FieldId) (m : String) :
    (CONTACT_CONFIG.MIN_MESSAGE_LENGTH ≤ m.length ∧
        m.length ≤ CONTACT_CONFIG.MAX_MESSAGE_LENGTH →
      (validateMessage s f m).2 = true) ∧
    (m.length = 9 → (validateMessage s f m).2 = false ∧
      mapGet (validateMessage s f m).1.errors f =
        some "Message must be at least 10 characters") ∧
    (m.length = 1001 → (validateMessage s f m).2 = false ∧
      mapGet (validateMessage s f m).1.errors f =
        some "Message must be less than 1000 characters") := by
  have hmin : CONTACT_CONFIG.MIN_MESSAGE_LENGTH = 10 := rfl
  have hmax : CONTACT_CONFIG.MAX_MESSAGE_LENGTH = 1000 := rfl
  refine ⟨?_, ?_, ?_⟩
  · rintro ⟨h1, h2⟩
    have hne : m ≠ "" := by
      intro h
      rw [h] at h1
      rw [hmin] at h1
      simp [String.length] at h1
    have hlt : ¬(m.length < CONTACT_CONFIG.MIN_MESSAGE_LENGTH) := by omega
    have hgt : ¬(m.length > CONTACT_CONFIG.MAX_MESSAGE_LENGTH) := by omega
    simp [validateMessage, hne, hlt, hgt]
  · intro h9
    have hne : m ≠ "" := by
      intro h
      rw [h] at h9
      simp [String.length] at h9
    have hlt : m.length < CONTACT_CONFIG.MIN_MESSAGE_LENGTH := by
      rw [hmin]; omega
    refine ⟨by simp [validateMessage, hne, hlt], ?_⟩
    have hp : mapGet (validateMessage s f m).1.errors f = some msgTooShort := by
      simp [validateMessage, hne, hlt, addError, setUI_errors, mapGet_set_self]
    rw [hp]
    rfl
  · intro h1001
    have hne : m ≠ "" := by
      intro h
      rw [h] at h1001
      simp [String.length] at h1001
    have hlt : ¬(m.length < CONTACT_CONFIG.MIN_MESSAGE_LENGTH) := by
      rw [hmin]; omega
    have hgt : m.length > CONTACT_CONFIG.MAX_MESSAGE_LENGTH := by
      rw [hmax]; omega
    refine ⟨by simp [validateMessage, hne, hlt, hgt], ?_⟩
    have hp : mapGet (validateMessage s f m).1.errors f = some msgTooLong := by
      simp [validateMessage, hne, hlt, hgt, addError, setUI_errors, mapGet_set_self]
    rw [hp]
    rfl

/-- Witness for C5 at lengths 10, 1000, 9 and 1001. -/
theorem c5_message_length_rules_witness :
    (validateMessage VState.init .message "xxxxxxxxxx").2 = true ∧
    (validateMessage VState.init .message longOk).2 = true ∧
    (validateMessage VState.init .message "abcdefghi").2 = false ∧
    (validateMessage VState.init .message tooLong1001).2 = false := by
  have h1000 : longOk.length = 1000 := List.length_replicate ..
  have h1001 : tooLong1001.length = 1001 := List.length_replicate ..
  refine ⟨?_, ?_, ?_, ?_⟩
  · exact (c5_message_length_rules VState.init .message "xxxxxxxxxx").1
      ⟨by decide, by decide⟩
  · exact (c5_message_length_rules VState.init .message longOk).1
      ⟨by rw [h1000]; decide, by rw [h1000]; decide⟩
  · exact ((c5_message_length_rules VState.init .message "abcdefghi").2.1
      (by decide)).1
  · exact ((c5_message_length_rules VState.init .message tooLong1001).2.2
      h1001).1

/-- C1: a re-entrant `handleSubmit` call while a submission is in flight
(`isSubmitting = true`) returns immediately with the whole state unchanged
— in particular no validation pass runs and no further external submit
call is made — and along every event sequence from a freshly initialized
handler at most one external submit operation is ever in flight. -/
theorem c1_reentrant_submit_ignored :
    (∀ s : HState, s.isSubmitting = true →
      handleSubmitStart s = s ∧
      (handleSubmitStart s).validateRuns = s.validateRuns ∧
      (handleSubmitStart s).submitCalls = s.submitCalls) ∧
    ∀ (v : FormValues) (es : List HEvent),
      (runEvents (initState v) es).inFlight ≤ 1 := by
  constructor
  · intro s h
    refine ⟨handleSubmitStart_of_submitting h, ?_, ?_⟩ <;>
      rw [handleSubmitStart_of_submitting h]
  · intro v es
    exact (runEvents_flightInv es (initState v)
      (by simp [flightInv, initState])).1

/-- Witness for C1: a concrete in-flight state and a concrete double-call
trace. -/
theorem c1_reentrant_submit_ignored_witness :
    (handleSubmitStart demoBusy = demoBusy ∧
      (handleSubmitStart demoBusy).validateRuns = demoBusy.validateRuns ∧
      (handleSubmitStart demoBusy).submitCalls = demoBusy.submitCalls) ∧
    (runEvents (initState demoValid) [HEvent.call, HEvent.call]).inFlight ≤ 1 :=
  ⟨c1_reentrant_submit_ignored.1 demoBusy rfl,
   c1_reentrant_submit_ignored.2 demoValid [HEvent.call, HEvent.call]⟩

/-- C7: starting idle with values that validate, a submit call followed by
a successful resolution shows the success notification, clears the field
values, leaves the error set empty and every per-field UI marker cleared,
resets the character counter, re-enables the inputs and the submit
control, and moves focus to the first field. -/
theorem c7_success_resets_form (s : HState) (hidle : s.isSubmitting = false)
    (hvalid : (validateForm s.validator s.values).2 = true) :
    (runEvents s [HEvent.call, HEvent.resolveAt 2000 SubmitResponse.success]).notif
      = some ⟨CONTACT_CONFIG.MSG_SUCCESS, NotifKind.success⟩ ∧
    (runEvents s [HEvent.call, HEvent.resolveAt 2000 SubmitResponse.success]).values
      = ⟨"", "", "", ""⟩ ∧
    (runEvents s [HEvent.call, HEvent.resolveAt 2000 SubmitResponse.success]).validator.errors
      = [] ∧
    (runEvents s [HEvent.call, HEvent.resolveAt 2000 SubmitResponse.success]).validator.nameUI
      = FieldUI.clean ∧
    (runEvents s [HEvent.call, HEvent.resolveAt 2000 SubmitResponse.success]).validator.emailUI
      = FieldUI.clean ∧
    (runEvents s [HEvent.call, HEvent.resolveAt 2000 SubmitResponse.success]).validator.subjectUI
      = FieldUI.clean ∧
    (runEvents s [HEvent.call, HEvent.resolveAt 2000 SubmitResponse.success]).validator.messageUI
      = FieldUI.clean ∧
    (runEvents s [HEvent.call, HEvent.resolveAt 2000 SubmitResponse.success]).counterText
      = "0/1000 characters" ∧
    (runEvents s [HEvent.call, HEvent.resolveAt 2000 SubmitResponse.success]).inputsDisabled
      = false ∧
    (runEvents s [HEvent.call, HEvent.resolveAt 2000 SubmitResponse.success]).submitDisabled
      = false ∧
    (runEvents s [HEvent.call, HEvent.resolveAt 2000 SubmitResponse.success]).isSubmitting
      = false ∧
    (runEvents s [HEvent.call, HEvent.resolveAt 2000 SubmitResponse.success]).focused
      = some FieldId.name := by
  have hv := validateForm_eq_formResult s.validator s.values
  rw [hv] at hvalid
  have hvOk : formAllOk s.values = true := hvalid
  have h1 : handleSubmitStart s =
      { s with validator := formResult s.values,
               validateRuns := s.validateRuns + 1,
               isSubmitting := true, submitDisabled := true,
               submitLoading := true, submitLabel := "Sending...",
               inputsDisabled := true,
               inFlight := s.inFlight + 1, submitCalls := s.submitCalls + 1 } := by
    rw [handleSubmitStart, if_neg (by simp [hidle]), hv]
    simp [hvOk, setSubmittingState]
  have h2 : runEvents s [HEvent.call, HEvent.resolveAt 2000 SubmitResponse.success]
      = resolveStep (handleSubmitStart s) 2000 SubmitResponse.success := rfl
  rw [h2, h1, resolveStep]
  rw [if_neg (by simp)]
  refine ⟨?_, ?_, ?_, ?_, ?_, ?_, ?_, ?_, ?_, ?_, ?_, ?_⟩
  all_goals
    simp [handleSuccess, showNotif, clearValidationStates, setSubmittingState,
      formResult, formErrors_nil_of_allOk hvOk]
    try rfl

/-- Witness for C7: the all-valid scenario values from a fresh handler. -/
theorem c7_success_resets_form_witness :
    (runEvents (initState demoValid)
        [HEvent.call, HEvent.resolveAt 2000 SubmitResponse.success]).notif
      = some ⟨CONTACT_CONFIG.MSG_SUCCESS, NotifKind.success⟩ ∧
    (runEvents (initState demoValid)
        [HEvent.call, HEvent.resolveAt 2000 SubmitResponse.success]).values
      = ⟨"", "", "", ""⟩ ∧
    (runEvents (initState demoValid)
        [HEvent.call, HEvent.resolveAt 2000 SubmitResponse.success]).validator.errors
      = [] ∧
    (runEvents (initState demoValid)
        [HEvent.call, HEvent.resolveAt 2000 SubmitResponse.success]).validator.nameUI
      = FieldUI.clean ∧
    (runEvents (initState demoValid)
        [HEvent.call, HEvent.resolveAt 2000 SubmitResponse.success]).validator.emailUI
      = FieldUI.clean ∧
    (runEvents (initState demoValid)
        [HEvent.call, HEvent.resolveAt 2000 SubmitResponse.success]).validator.subjectUI
      = FieldUI.clean ∧
    (runEvents (initState demoValid)
        [HEvent.call, HEvent.resolveAt 2000 SubmitResponse.success]).validator.messageUI
      = FieldUI.clean ∧
    (runEvents (initState demoValid)
        [HEvent.call, HEvent.resolveAt 2000 SubmitResponse.success]).counterText
      = "0/1000 characters" ∧
    (runEvents (initState demoValid)
        [HEvent.call, HEvent.resolveAt 2000 SubmitResponse.success]).inputsDisabled
      = false ∧
    (runEvents (initState demoValid)
        [HEvent.call, HEvent.resolveAt 2000 SubmitResponse.success]).submitDisabled
      = false ∧
    (runEvents (initState demoValid)
        [HEvent.call, HEvent.resolveAt 2000 SubmitResponse.success]).isSubmitting
      = false ∧
    (runEvents (initState demoValid)
        [HEvent.call, HEvent.resolveAt 2000 SubmitResponse.success]).focused
      = some FieldId.name :=
  c7_success_resets_form (initState demoValid) rfl (by decide)

/-- C8: whenever the in-flight submission settles with anything other than
success — an explicit failure flag (with or without a message) or an
exception — the handler shows an error notification carrying the provided
message or the generic fallback, leaves the entered field values
unchanged, re-enables the inputs and the submit control, and returns to
the idle state. No outcome is fatal: the `catch`/`finally` structure
always restores interactivity. -/
theorem c8_failure_keeps_values_returns_idle (s : HState) (t : Nat)
    (r : SubmitResponse) (hfl : s.inFlight = 1)
    (hr : r ≠ SubmitResponse.success) :
    (resolveStep s t r).notif = some ⟨failureMessage r, NotifKind.error⟩ ∧
    (resolveStep s t r).values = s.values ∧
    (resolveStep s t r).isSubmitting = false ∧
    (resolveStep s t r).inFlight = 0 ∧
    (resolveStep s t r).inputsDisabled = false ∧
    (resolveStep s t r).submitDisabled = false ∧
    (resolveStep s t r).submitLabel = "Send Message" := by
  cases r with
  | success => exact absurd rfl hr
  | failure m =>
    refine ⟨?_, ?_, ?_, ?_, ?_, ?_, ?_⟩ <;>
      simp [resolveStep, hfl, handleError, showNotif, setSubmittingState,
        failureMessage]
  | thrown =>
    refine ⟨?_, ?_, ?_, ?_, ?_, ?_, ?_⟩ <;>
      simp [resolveStep, hfl, handleError, showNotif, setSubmittingState,
        failureMessage]

/-- Witness for C8: an in-flight state settling with an explicit failure
flag carrying a message. -/
theorem c8_failure_keeps_values_returns_idle_witness :
    (resolveStep demoBusy 2000 (SubmitResponse.failure (some "Server unavailable"))).notif
      = some ⟨failureMessage (SubmitResponse.failure (some "Server unavailable")),
              NotifKind.error⟩ ∧
    (resolveStep demoBusy 2000 (SubmitResponse.failure (some "Server unavailable"))).values
      = demoBusy.values ∧
    (resolveStep demoBusy 2000 (SubmitResponse.failure (some "Server unavailable"))).isSubmitting
      = false ∧
    (resolveStep demoBusy 2000 (SubmitResponse.failure (some "Server unavailable"))).inFlight
      = 0 ∧
    (resolveStep demoBusy 2000 (SubmitResponse.failure (some "Server unavailable"))).inputsDisabled
      = false ∧
    (resolveStep demoBusy 2000 (SubmitResponse.failure (some "Server unavailable"))).submitDisabled
      = false ∧
    (resolveStep demoBusy 2000 (SubmitResponse.failure (some "Server unavailable"))).submitLabel
      = "Send Message" :=
  c8_failure_keeps_values_returns_idle demoBusy 2000
    (SubmitResponse.failure (some "Server unavailable")) rfl (by decide)

/-- Counterexample to C9 as stated: with the all-valid scenario values, a
submission whose resolution takes 20000 ms — twice the
`SUBMISSION_TIMEOUT` bound — is still handled as a success (success
notification), not as a `SubmissionFailure`: the code attaches no timeout
to the awaited submit operation. -/
theorem c9_counterexample :
    CONTACT_CONFIG.SUBMISSION_TIMEOUT < 20000 ∧
    (runEvents (initState demoValid)
        [HEvent.call, HEvent.resolveAt 20000 SubmitResponse.success]).notif
      = some ⟨CONTACT_CONFIG.MSG_SUCCESS, NotifKind.success⟩ := by
  constructor
  · decide
  · decide

/-- C9 (amended): `handleSubmit` awaits the external submit operation with
no bound at all — the handling of the settled response is independent of
the elapsed resolution time, so no delay is ever converted into a failure
outcome — while the `SUBMISSION_TIMEOUT` constant (10000 ms) is declared
in the configuration but never consulted. -/
theorem c9_await_has_no_timeout (s : HState) (t₁ t₂ : Nat)
    (r : SubmitResponse) :
    resolveStep s t₁ r = resolveStep s t₂ r ∧
    CONTACT_CONFIG.SUBMISSION_TIMEOUT = 10000 :=
  ⟨rfl, rfl⟩
